import Mathlib

/-!
# Verification of the maya event-processing core

Shallow embedding of:
* the SSE session event reducer `handleEvent` from the frontend game
  context (src/unnamed/part_009, `GameProvider.generateGame.handleEvent`),
* the retry/backoff executor and its wait-time computation from the
  asset-generation script (docs/reference/game-asset-mcp-main/index.js,
  `retryWithBackoff`, `logOperation`; src/unnamed/part_003),
* the backend space-type detection (src/unnamed/part_003, `detectSpaceType`).

JavaScript strings are modelled as Lean `String`, processed over `List Char`
with structural recursion so that closed instances evaluate in the kernel.
JS numbers appearing here are non-negative integers, modelled as `Nat`.
-/

/-! ## JavaScript string primitives -/

/-- The whitespace characters recognised by the JS `\s` class and `trim`
(ASCII part, which is all the sources ever produce). -/
def isJsSpace (c : Char) : Bool :=
  c = ' ' || c = '\t' || c = '\n' || c = '\r' || c = '\x0b' || c = '\x0c'

/-- Characters matched by the regex `.` (anything but a line terminator). -/
def isDotChar (c : Char) : Bool :=
  c ≠ '\n' && c ≠ '\r' && c.val ≠ 0x2028 && c.val ≠ 0x2029

/-- `String.prototype.trim`, on character lists. -/
def jsTrimChars (l : List Char) : List Char :=
  ((l.dropWhile isJsSpace).reverse.dropWhile isJsSpace).reverse

/-- `String.prototype.trim`. -/
def jsTrim (s : String) : String := String.mk (jsTrimChars s.toList)

/-- Is `needle` a contiguous substring of the list? -/
def isSubstrChars (needle : List Char) : List Char → Bool
  | [] => needle.isEmpty
  | c :: rest => needle.isPrefixOf (c :: rest) || isSubstrChars needle rest

/-- `String.prototype.includes` (case-sensitive substring test). -/
def jsIncludes (s sub : String) : Bool := isSubstrChars sub.toList s.toList

/-- ASCII lowercasing of one character, as done by `toLowerCase`. -/
def charLower (c : Char) : Char := c.toLower

/-- `String.prototype.toLowerCase` (ASCII part). -/
def strLower (s : String) : String := String.mk (s.toList.map charLower)

/-- `split('\n')` on character lists. -/
def splitNlChars : List Char → List (List Char)
  | [] => [[]]
  | c :: rest =>
    if c = '\n' then [] :: splitNlChars rest
    else
      match splitNlChars rest with
      | [] => [[c]]
      | l :: ls => (c :: l) :: ls

/-- `String.prototype.split('\n')`. -/
def splitLines (s : String) : List String := (splitNlChars s.toList).map String.mk

/-- `String.prototype.replace(pat, rep)` for a one-character string pattern:
JS replaces only the first occurrence. -/
def replaceFirstChar (pat rep : Char) : List Char → List Char
  | [] => []
  | c :: rest => if c = pat then rep :: rest else c :: replaceFirstChar pat rep rest

/-- `category.replace('_', ' ')` as used by the reducer's asset cases. -/
def underscoreToSpace (s : String) : String :=
  String.mk (replaceFirstChar '_' ' ' s.toList)

/-- JS truthiness of a nullable string (`null`/`undefined` and `""` are falsy). -/
def optTruthy : Option String → Bool
  | none => false
  | some s => s ≠ ""

/-- `a || b || c` on two nullable strings with a final string fallback,
returning the first truthy value. -/
def firstTruthy (a b : Option String) (c : String) : String :=
  if optTruthy a then a.getD ""
  else if optTruthy b then b.getD ""
  else c

/-- Ordered concatenation of a list of strings. -/
def joinAll : List String → String
  | [] => ""
  | c :: rest => c ++ joinAll rest

/-! ## Data model of the reducer state (src/unnamed/part_009, lines 4-87)

Field and constructor names follow the TypeScript interfaces. -/

inductive Phase where
  | analyzing | thinking | outlining | generating | previewing | completed
  | suggesting | idle
deriving DecidableEq

structure StatusBoxState where
  phase : Phase
  bullets : List String
  tip : Option String
deriving DecidableEq

structure BuildingState where
  bullets : List String
  isBuilding : Bool
deriving DecidableEq

inductive CodeType where
  | html | css | js
deriving DecidableEq

structure CodeStreamState where
  content : String
  currentType : CodeType
  isStreaming : Bool
deriving DecidableEq

inductive PubStatus where
  | idle | validating | preparing | deploying | published | error
deriving DecidableEq

structure PublisherState where
  status : PubStatus
  liveUrl : Option String
  siteName : Option String
  error : Option String
  isPublishing : Bool
deriving DecidableEq

/-- The `GameCode` payload `{html, css, js}` of a terminal `code` event. -/
structure GameCode where
  html : String
  css : String
  js : String
deriving DecidableEq

structure AssetInfo where
  filename : String
  category : String
  gcs_url : String
  preview_url : Option String
  size_bytes : Nat
  timestamp : String
  status : String
deriving DecidableEq

structure AssetProgress where
  total_requested : Nat
  total_generated : Nat
  current_step : String
deriving DecidableEq

structure AssetState where
  assets : List AssetInfo
  isGenerating : Bool
  currentCategory : Option String
  progress : AssetProgress
  error : Option String
deriving DecidableEq

inductive GenStatus where
  | idle | thinking | generating | completed | error
deriving DecidableEq

inductive OperationType where
  | game_creation | publishing | idle
deriving DecidableEq

structure AgentInfo where
  status : String
  currentTask : String
  lastActivity : Option String
deriving DecidableEq

structure AgentState where
  orchestrator : AgentInfo
  gameCreator : AgentInfo
  assetGenerator : AgentInfo
  publisher : AgentInfo
deriving DecidableEq

structure GameState where
  code : Option GameCode
  isGenerating : Bool
  status : GenStatus
  error : Option String
  statusBox : StatusBoxState
  buildingStatus : BuildingState
  codeStream : CodeStreamState
  suggestions : List String
  publisher : PublisherState
  operationType : OperationType
  agents : AgentState
  assets : AssetState
deriving DecidableEq

/-- The combined component state the event handler can read and write:
the `gameState` plus the separately stored `realSessionId`
(`useState` hooks of `GameProvider`). -/
structure ProviderState where
  gameState : GameState
  realSessionId : Option String
deriving DecidableEq

/-- Ambient values the handler closes over: the frontend-generated
`sessionId` and the current time (`new Date().toISOString()`). -/
structure ReducerEnv where
  sessionId : String
  now : String
deriving DecidableEq

/-! ## The SSE event vocabulary

Discriminated union of the events `handleEvent` dispatches on, with the
payload shapes the reducer casts them to (src/unnamed/part_009). -/

/-- Payload of `asset_session_start`. -/
structure SessionStartPayload where
  description : String
  total_assets : Nat
  categories : List String
  session_id : Option String
  user_id : Option String
deriving DecidableEq

/-- Payload of `asset_generating`. -/
structure AssetGeneratingPayload where
  category : String
  prompt : Option String
  status : String
deriving DecidableEq

/-- Payload of `asset_completed`. -/
structure AssetCompletedPayload where
  category : String
  filename : String
  gcs_url : String
  version : String
  size_bytes : Nat
  status : String
  session_id : Option String
  user_id : Option String
deriving DecidableEq

/-- Payload of `asset_session_complete`. -/
structure SessionCompletePayload where
  total_generated : Nat
  total_requested : Nat
  status : String
  fallback_mode : Option String
  session_id : Option String
  user_id : Option String
deriving DecidableEq

/-- Payload of `asset_error`. -/
structure AssetErrorPayload where
  error : String
  category : Option String
  critical : Option Bool
deriving DecidableEq

/-- Payload of `publish_status`: `'validating' | 'preparing' | 'deploying'`. -/
inductive PublishStatus where
  | validating | preparing | deploying
deriving DecidableEq

/-- Payload of `publish_success`. -/
structure PublishSuccessPayload where
  live_url : String
  site_name : String
  message : String
deriving DecidableEq

/-- Payload of `status`: `'thinking' | 'generating'`. -/
inductive StatusPayload where
  | thinking | generating
deriving DecidableEq

/-- One server-sent event, tagged by its `type` string. -/
inductive SSEEvent where
  | asset_session_start (p : SessionStartPayload)
  | asset_generating (p : AssetGeneratingPayload)
  | asset_completed (p : AssetCompletedPayload)
  | asset_session_complete (p : SessionCompletePayload)
  | asset_error (p : AssetErrorPayload)
  | publish_status (p : PublishStatus)
  | publish_success (p : PublishSuccessPayload)
  | publish_error (p : String)
  | publish_message (p : String)
  | status (p : StatusPayload)
  | explanation (p : String)
  | features (p : String)
  | suggestions (p : String)
  | code_chunk (p : String)
  | command (p : String)
  | code (p : GameCode)
  | stream_complete
  | error (p : String)
deriving DecidableEq

/-- The `event.type` discriminator string. -/
def SSEEvent.etype : SSEEvent → String
  | .asset_session_start _ => "asset_session_start"
  | .asset_generating _ => "asset_generating"
  | .asset_completed _ => "asset_completed"
  | .asset_session_complete _ => "asset_session_complete"
  | .asset_error _ => "asset_error"
  | .publish_status _ => "publish_status"
  | .publish_success _ => "publish_success"
  | .publish_error _ => "publish_error"
  | .publish_message _ => "publish_message"
  | .status _ => "status"
  | .explanation _ => "explanation"
  | .features _ => "features"
  | .suggestions _ => "suggestions"
  | .code_chunk _ => "code_chunk"
  | .command _ => "command"
  | .code _ => "code"
  | .stream_complete => "stream_complete"
  | .error _ => "error"

/-! ## Operation-type classification (part_009, lines 199-207) -/

/-- Event types classified as publishing. -/
def publishEventTypes : List String :=
  ["publish_status", "publish_success", "publish_error", "publish_message"]

/-- Event types classified as game creation. -/
def creationEventTypes : List String :=
  ["status", "explanation", "code", "features"]

/-- Asset-lifecycle event types (classification keeps the current value). -/
def assetEventTypes : List String :=
  ["asset_session_start", "asset_generating", "asset_completed",
   "asset_session_complete", "asset_error"]

/-- The operation-type detection performed before the event `switch`. -/
def detectOperationType (e : SSEEvent) (s : GameState) : GameState :=
  if publishEventTypes.contains e.etype then
    { s with operationType := OperationType.publishing }
  else if creationEventTypes.contains e.etype then
    { s with operationType := OperationType.game_creation }
  else s

/-! ## Suggestion parsing (part_009, lines 465-505)

The reducer splits the payload on newlines and keeps each trimmed line
matching `^[-*]\s+(.+)` or `^\d+\.\s+(.+)`, with the marker stripped by
`replace(/^[-*]\s+/, '').replace(/^\d+\.\s+/, '')`. -/

/-- After the mandatory `\s+`, the regex still needs one `.`-matching
character; the quantifier may hand surplus whitespace over to `(.+)`. -/
def wsThenDot : List Char → Bool
  | [] => false
  | c :: rest => (!(c = '\n' || c = '\r')) || (isJsSpace c && wsThenDot rest)

/-- `\s+(.+)` at the head of the list. -/
def hasWsThenChar : List Char → Bool
  | [] => false
  | c :: rest => isJsSpace c && wsThenDot rest

/-- Test for `^[-*]\s+(.+)`. -/
def matchDashBullet : List Char → Bool
  | [] => false
  | c :: rest => (c = '-' || c = '*') && hasWsThenChar rest

/-- Test for `^\d+\.\s+(.+)`. -/
def matchNumBullet (l : List Char) : Bool :=
  let ds := l.takeWhile Char.isDigit
  !ds.isEmpty &&
    (match l.drop ds.length with
     | '.' :: rest => hasWsThenChar rest
     | _ => false)

/-- `replace(/^[-*]\s+/, '')`: drop a leading dash/star marker and the
(greedy) whitespace run after it, if present. -/
def stripDashMarker (l : List Char) : List Char :=
  match l with
  | [] => l
  | c :: rest =>
    if c = '-' || c = '*' then
      let ws := rest.takeWhile isJsSpace
      if ws.isEmpty then l else rest.drop ws.length
    else l

/-- `replace(/^\d+\.\s+/, '')`: drop a leading numbered marker. -/
def stripNumMarker (l : List Char) : List Char :=
  let ds := l.takeWhile Char.isDigit
  if ds.isEmpty then l
  else
    match l.drop ds.length with
    | '.' :: rest =>
      let ws := rest.takeWhile isJsSpace
      if ws.isEmpty then l else rest.drop ws.length
    | _ => l

/-- One iteration of the suggestion loop: the contribution of one line. -/
def parseLine (line : String) : Option String :=
  let t := jsTrimChars line.toList
  if matchDashBullet t || matchNumBullet t then
    let content := stripNumMarker (stripDashMarker t)
    if content.isEmpty then none else some (String.mk content)
  else none

/-- The whole `for (const line of lines)` accumulation. -/
def parseSuggestionLines (lines : List String) : List String :=
  lines.foldl
    (fun acc l =>
      match parseLine l with
      | some c => acc ++ [c]
      | none => acc)
    []

/-- The fixed fallback suggestion set. -/
def defaultSuggestions : List String :=
  ["Add sound effects",
   "Change colors to neon theme",
   "Increase difficulty",
   "Add particle effects",
   "Create power-ups",
   "Add multiplayer mode"]

/-! ## Command tip extraction (part_009, lines 580-598)

`payload.match(/<(\w+)>([^<]+)</)`, keeping capture group 2. -/

/-- `\w` (ASCII word character). -/
def isWordChar (c : Char) : Bool := c.isAlphanum || c = '_'

/-- Attempt the command regex at the head of the list. -/
def cmdMatchAt : List Char → Option String
  | '<' :: rest =>
    let w := rest.takeWhile isWordChar
    if w.isEmpty then none
    else
      match rest.drop w.length with
      | '>' :: r2 =>
        let body := r2.takeWhile (fun c => c ≠ '<')
        if body.isEmpty then none
        else
          match r2.drop body.length with
          | '<' :: _ => some (String.mk body)
          | _ => none
      | _ => none
  | _ => none

/-- Leftmost match of the command regex. -/
def cmdSearch : List Char → Option String
  | [] => none
  | c :: rest =>
    match cmdMatchAt (c :: rest) with
    | some t => some t
    | none => cmdSearch rest

/-- Capture group 2 of `/<(\w+)>([^<]+)</` on the payload, if any. -/
def commandTipMatch (s : String) : Option String := cmdSearch s.toList

/-! ## Fixed display strings of the reducer -/

/-- `allBullets[0]`, also the fresh bullet list of a first chunk. -/
def bulletHtml : String := "🔧 Setting up HTML structure"

/-- `allBullets[1]`. -/
def bulletCss : String := "🎨 Adding CSS styling and animations"

/-- `allBullets[2]`. -/
def bulletLogic : String := "⚡ Implementing game logic"

/-- `allBullets[3]`. -/
def bulletHandlers : String := "🎮 Setting up event handlers"

/-- Status-box bullets installed by the terminal `code` event. -/
def codeDoneStatusBullets : List String :=
  ["Game generated successfully!",
   "Ready for testing and modifications",
   "Try asking for specific changes"]

/-- Building bullets installed by the terminal `code` event. -/
def codeDoneBuildingBullets : List String :=
  ["✅ HTML structure created",
   "✅ CSS styling applied",
   "✅ JavaScript logic implemented",
   "✅ Game mechanics configured",
   "✅ Interactive features added",
   "🎮 Game ready to play!"]

/-- `if (!list.includes(x)) list.push(x)`. -/
def pushUnique (l : List String) (x : String) : List String :=
  if l.contains x then l else l ++ [x]

/-- The progressive building bullets computed for one code chunk. -/
def chunkBullets (prev : BuildingState) (c : String) : List String :=
  let b0 := if !prev.isBuilding then [bulletHtml] else prev.bullets
  let b1 :=
    if jsIncludes c "style" || jsIncludes c "css" || jsIncludes c "color:" then
      pushUnique b0 bulletCss
    else b0
  let b2 :=
    if jsIncludes c "function" || jsIncludes c "const " || jsIncludes c "let " then
      pushUnique b1 bulletLogic
    else b1
  if jsIncludes c "addEventListener" || jsIncludes c "keydown" || jsIncludes c "click" then
    pushUnique b2 bulletHandlers
  else b2

/-- The keyword sniffing that tags a chunk as html, css or js. -/
def chunkCodeType (c : String) : CodeType :=
  if jsIncludes c "function" || jsIncludes c "const " || jsIncludes c "addEventListener" then
    CodeType.js
  else if jsIncludes c "color:" || jsIncludes c "background:" || jsIncludes c "font-" then
    CodeType.css
  else CodeType.html

/-- A code chunk is processed only when `payload.trim()` is truthy. -/
def chunkActive (c : String) : Bool := jsTrim c ≠ ""

/-! ## The event reducer (part_009, lines 199-670)

`handleEvent` first runs the operation-type detection, then the `switch`.
Calls that do not touch component state (chat forwarding, logging, the
deferred asset refresh) have no counterpart here. -/

def handleEvent (env : ReducerEnv) (st : ProviderState) (e : SSEEvent) : ProviderState :=
  let gs := detectOperationType e st.gameState
  match e with
  | SSEEvent.asset_session_start p =>
    { gameState :=
        { gs with
          assets :=
            { gs.assets with
              isGenerating := true
              progress :=
                { total_requested := p.total_assets
                  total_generated := 0
                  current_step := "Starting asset generation session" }
              error := none } }
      realSessionId :=
        if optTruthy p.session_id then p.session_id else st.realSessionId }
  | SSEEvent.asset_generating p =>
    { gameState :=
        { gs with
          assets :=
            { gs.assets with
              currentCategory := some p.category
              progress :=
                { gs.assets.progress with
                  current_step :=
                    if p.status = "starting" then
                      "Generating " ++ underscoreToSpace p.category ++ "..."
                    else
                      "Processing " ++ underscoreToSpace p.category ++ "..." } } }
      realSessionId := st.realSessionId }
  | SSEEvent.asset_completed p =>
    let sidUse := firstTruthy p.session_id st.realSessionId env.sessionId
    let newAsset : AssetInfo :=
      { filename := p.filename
        category := p.category
        gcs_url := p.gcs_url
        preview_url :=
          some ("http://localhost:8000/assets/" ++ sidUse ++ "/" ++ p.filename ++ "/preview")
        size_bytes := p.size_bytes
        timestamp := env.now
        status := "completed" }
    { gameState :=
        { gs with
          assets :=
            { gs.assets with
              assets := gs.assets.assets ++ [newAsset]
              progress :=
                { gs.assets.progress with
                  total_generated := gs.assets.progress.total_generated + 1
                  current_step := "Completed " ++ underscoreToSpace p.category } } }
      realSessionId :=
        if optTruthy p.session_id && !optTruthy st.realSessionId then p.session_id
        else st.realSessionId }
  | SSEEvent.asset_session_complete p =>
    { gameState :=
        { gs with
          assets :=
            { gs.assets with
              isGenerating := false
              progress :=
                { gs.assets.progress with
                  total_generated := p.total_generated
                  current_step :=
                    if p.status = "completed" then
                      "Asset generation completed (" ++ toString p.total_generated ++
                        "/" ++ toString p.total_requested ++ ")"
                    else "Asset generation failed - using text-only mode" }
              error :=
                if p.status = "failed" then some "Asset generation failed" else none } }
      realSessionId := st.realSessionId }
  | SSEEvent.asset_error p =>
    { gameState :=
        { gs with
          assets :=
            { gs.assets with
              isGenerating :=
                if p.critical = some true then false else gs.assets.isGenerating
              error := some p.error
              progress :=
                { gs.assets.progress with
                  current_step :=
                    if optTruthy p.category then
                      "Error generating " ++ p.category.getD "" ++ ": " ++ p.error
                    else "Asset generation error: " ++ p.error } } }
      realSessionId := st.realSessionId }
  | SSEEvent.publish_status p =>
    { gameState :=
        { gs with
          publisher :=
            { gs.publisher with
              status :=
                match p with
                | PublishStatus.validating => PubStatus.validating
                | PublishStatus.preparing => PubStatus.preparing
                | PublishStatus.deploying => PubStatus.deploying
              isPublishing := true
              error := none }
          statusBox :=
            { gs.statusBox with
              phase :=
                match p with
                | PublishStatus.validating => Phase.analyzing
                | PublishStatus.preparing => Phase.thinking
                | PublishStatus.deploying => Phase.generating
              tip :=
                match p with
                | PublishStatus.validating => some "Checking if a game has been created..."
                | PublishStatus.preparing => some "Game found! Preparing for deployment..."
                | PublishStatus.deploying => some "Deploying to Firebase hosting..." } }
      realSessionId := st.realSessionId }
  | SSEEvent.publish_success p =>
    { gameState :=
        { gs with
          publisher :=
            { gs.publisher with
              status := PubStatus.published
              isPublishing := false
              liveUrl := some p.live_url
              siteName := some p.site_name
              error := none }
          statusBox :=
            { gs.statusBox with
              phase := Phase.completed
              tip := some "Your game is now live!" } }
      realSessionId := st.realSessionId }
  | SSEEvent.publish_error s =>
    { gameState :=
        { gs with
          publisher :=
            { gs.publisher with
              status := PubStatus.error
              isPublishing := false
              error := some s }
          statusBox :=
            { gs.statusBox with
              phase := Phase.idle
              tip := none } }
      realSessionId := st.realSessionId }
  | SSEEvent.publish_message _ =>
    { gameState := gs, realSessionId := st.realSessionId }
  | SSEEvent.status p =>
    { gameState :=
        { gs with
          status :=
            match p with
            | StatusPayload.thinking => GenStatus.thinking
            | StatusPayload.generating => GenStatus.generating
          statusBox :=
            { gs.statusBox with
              phase :=
                match p with
                | StatusPayload.thinking => Phase.thinking
                | StatusPayload.generating => Phase.generating
              bullets := [] } }
      realSessionId := st.realSessionId }
  | SSEEvent.explanation _ =>
    { gameState :=
        { gs with
          statusBox :=
            { gs.statusBox with
              phase := Phase.outlining
              tip := some "Designing your game concept..." } }
      realSessionId := st.realSessionId }
  | SSEEvent.features _ =>
    { gameState := gs, realSessionId := st.realSessionId }
  | SSEEvent.suggestions s =>
    let parsedSuggestions := parseSuggestionLines (splitLines s)
    let finalSuggestions :=
      if 0 < parsedSuggestions.length then parsedSuggestions else defaultSuggestions
    { gameState :=
        { gs with
          suggestions := finalSuggestions
          statusBox :=
            { gs.statusBox with
              phase := Phase.completed
              tip := some "Your game is ready! Try the suggestions below." } }
      realSessionId := st.realSessionId }
  | SSEEvent.code_chunk c =>
    if chunkActive c then
      { gameState :=
          { gs with
            statusBox :=
              { gs.statusBox with
                phase := Phase.generating
                tip := some "Writing your game code..." }
            buildingStatus :=
              { bullets := chunkBullets gs.buildingStatus c
                isBuilding := true }
            codeStream :=
              { content :=
                  if !gs.codeStream.isStreaming then c else gs.codeStream.content ++ c
                currentType := chunkCodeType c
                isStreaming := true } }
        realSessionId := st.realSessionId }
    else { gameState := gs, realSessionId := st.realSessionId }
  | SSEEvent.command c =>
    if jsIncludes c "<" then
      match commandTipMatch c with
      | some tip =>
        { gameState := { gs with statusBox := { gs.statusBox with tip := some tip } }
          realSessionId := st.realSessionId }
      | none => { gameState := gs, realSessionId := st.realSessionId }
    else { gameState := gs, realSessionId := st.realSessionId }
  | SSEEvent.code g =>
    { gameState :=
        { gs with
          code := some g
          isGenerating := false
          status := GenStatus.completed
          statusBox :=
            { phase := Phase.suggesting
              bullets := codeDoneStatusBullets
              tip := some "Your game is ready to play! What would you like to modify?" }
          buildingStatus :=
            { bullets := codeDoneBuildingBullets
              isBuilding := false }
          codeStream :=
            { content := gs.codeStream.content
              currentType := gs.codeStream.currentType
              isStreaming := false } }
      realSessionId := st.realSessionId }
  | SSEEvent.stream_complete =>
    { gameState := gs, realSessionId := st.realSessionId }
  | SSEEvent.error s =>
    { gameState :=
        { gs with
          isGenerating := false
          status := GenStatus.error
          error := some s
          statusBox := { phase := Phase.idle, bullets := [], tip := none }
          buildingStatus := { bullets := [], isBuilding := false }
          codeStream := { content := "", currentType := CodeType.html, isStreaming := false }
          suggestions := [] }
      realSessionId := st.realSessionId }

/-- Folding a list of code-chunk payloads into the state, in order. -/
def applyChunks (env : ReducerEnv) (st : ProviderState) (cs : List String) : ProviderState :=
  cs.foldl (fun s c => handleEvent env s (SSEEvent.code_chunk c)) st

/-! ## GPU-quota wait parsing (index.js, lines 185-210; part_003 regex)

The executor matches the failing error message against
`/exceeded your GPU quota.*(?:retry|wait)\s*(?:in|after)?\s*(?:(\d+):(\d+):(\d+)|(\d+)\s*(?:seconds|s)|(\d+)\s*(?:minutes|m)|(\d+)\s*(?:hours|h))/i`.
The matcher below implements that pattern with JS semantics: leftmost
overall match, greedy `.*` (later duration positions tried first),
alternation in written order, `i` flag via lowercasing. -/

/-- Which alternative of the duration group matched (capture groups 1-3,
4, 5 and 6 of the pattern). -/
inductive QuotaTime where
  | hms (h m s : Nat)
  | secs (n : Nat)
  | mins (n : Nat)
  | hours (n : Nat)
deriving DecidableEq

/-- `parseInt` of a non-empty digit run. -/
def digitsToNat (ds : List Char) : Nat :=
  ds.foldl (fun n c => n * 10 + (c.toNat - '0'.toNat)) 0

/-- The duration alternation `(\d+):(\d+):(\d+)|(\d+)\s*(?:seconds|s)|...`
at the head of the (lowercased) list. -/
def tryTimeSpec (l : List Char) : Option QuotaTime :=
  let ds := l.takeWhile Char.isDigit
  if ds.isEmpty then none
  else
    let n1 := digitsToNat ds
    let r1 := l.drop ds.length
    let hms : Option QuotaTime :=
      match r1 with
      | ':' :: r2 =>
        let ds2 := r2.takeWhile Char.isDigit
        if ds2.isEmpty then none
        else
          match r2.drop ds2.length with
          | ':' :: r3 =>
            let ds3 := r3.takeWhile Char.isDigit
            if ds3.isEmpty then none
            else some (QuotaTime.hms n1 (digitsToNat ds2) (digitsToNat ds3))
          | _ => none
      | _ => none
    match hms with
    | some t => some t
    | none =>
      let ru := r1.dropWhile isJsSpace
      if "seconds".toList.isPrefixOf ru || ['s'].isPrefixOf ru then
        some (QuotaTime.secs n1)
      else if "minutes".toList.isPrefixOf ru || ['m'].isPrefixOf ru then
        some (QuotaTime.mins n1)
      else if "hours".toList.isPrefixOf ru || ['h'].isPrefixOf ru then
        some (QuotaTime.hours n1)
      else none

/-- `\s*(?:in|after)?\s*` followed by the duration group, with the
backtracking order of the optional group (`in`, then `after`, then empty). -/
def tryAfterKw (l : List Char) : Option QuotaTime :=
  let l1 := l.dropWhile isJsSpace
  let viaIn :=
    if "in".toList.isPrefixOf l1 then
      tryTimeSpec ((l1.drop 2).dropWhile isJsSpace)
    else none
  match viaIn with
  | some t => some t
  | none =>
    let viaAfter :=
      if "after".toList.isPrefixOf l1 then
        tryTimeSpec ((l1.drop 5).dropWhile isJsSpace)
      else none
    match viaAfter with
    | some t => some t
    | none => tryTimeSpec l1

/-- `(?:retry|wait)` followed by the rest of the pattern. -/
def tryKw (l : List Char) : Option QuotaTime :=
  if "retry".toList.isPrefixOf l then tryAfterKw (l.drop 5)
  else if "wait".toList.isPrefixOf l then tryAfterKw (l.drop 4)
  else none

/-- Greedy `.*`: try the farthest allowed continuation position first,
then backtrack towards the current position. -/
def scanBack (rest : List Char) : Nat → Option QuotaTime
  | 0 => tryKw rest
  | p + 1 =>
    match tryKw (rest.drop (p + 1)) with
    | some t => some t
    | none => scanBack rest p

/-- The continuation of the pattern after the quota literal. -/
def tryTail (rest : List Char) : Option QuotaTime :=
  scanBack rest (rest.takeWhile isDotChar).length

/-- The lowercased literal that anchors the pattern. -/
def quotaLit : List Char := "exceeded your gpu quota".toList

/-- Leftmost match: try every occurrence of the anchor literal in order. -/
def findQuotaMatch : List Char → Option QuotaTime
  | [] => none
  | c :: rest =>
    if quotaLit.isPrefixOf (c :: rest) then
      match tryTail ((c :: rest).drop quotaLit.length) with
      | some t => some t
      | none => findQuotaMatch rest
    else findQuotaMatch rest

/-- `error.message?.match(<gpu quota pattern>)`, reduced to the duration
information the executor extracts from the capture groups. -/
def gpuQuotaMatchTime (msg : String) : Option QuotaTime :=
  findQuotaMatch (msg.toList.map charLower)

/-- Milliseconds computed from the matched duration (index.js, lines 190-205). -/
def quotaWaitMs : QuotaTime → Nat
  | QuotaTime.hms h m s => (h * 3600 + m * 60 + s) * 1000
  | QuotaTime.secs n => n * 1000
  | QuotaTime.mins n => n * 60 * 1000
  | QuotaTime.hours n => n * 3600 * 1000

/-- `error.message?.includes("GPU quota") || error.message?.includes("quota exceeded")`. -/
def quotaMention (msg : String) : Bool :=
  jsIncludes msg "GPU quota" || jsIncludes msg "quota exceeded"

/-- One failure's wait handling in `retryWithBackoff`
(index.js, lines 185-255): returns the milliseconds slept before the next
attempt and the backoff delay carried into it.  A parsed duration gets a
one-second buffer and never doubles the delay; a quota mention without a
parseable duration waits a flat 60 s; anything else sleeps the current
delay and doubles it.  A parsed wait of zero falls back to 60 s (the JS
guard `!waitTime || waitTime <= 0`; the regex only yields non-negative
numbers, so `Nat` is faithful). -/
def computeWaitAndDelay (msg : String) (delay : Nat) : Nat × Nat :=
  match gpuQuotaMatchTime msg with
  | some qt =>
    let w := quotaWaitMs qt
    let w2 := if w = 0 then 60 * 1000 else w
    (w2 + 1000, delay)
  | none =>
    if quotaMention msg then (60 * 1000, delay)
    else (delay, delay * 2)

/-! ## The retry loop (index.js, lines 169-258; part_003, lines 6-36)

The asynchronous operation is modelled as a function from the 0-based
attempt index to that attempt's outcome.  The loop returns the final
outcome together with the list of waits (in ms) it slept through, in
order; attempt `k` is retried only while `k + 1 ≤ maxRetries`, and an
exhausted loop re-throws the last error unchanged. -/

def retryExecGo (op : Nat → Except String α) (maxRetries k delay : Nat) :
    Except String α × List Nat :=
  match op k with
  | Except.ok a => (Except.ok a, [])
  | Except.error e =>
    if h : maxRetries < k + 1 then (Except.error e, [])
    else
      let wd := computeWaitAndDelay e delay
      let rest := retryExecGo op maxRetries (k + 1) wd.2
      (rest.1, wd.1 :: rest.2)
termination_by maxRetries + 1 - k
decreasing_by omega

/-- `retryWithBackoff(operation, operationId, maxRetries, initialDelay)`:
the `operationId` only routes log entries and does not affect the result
or the waits. -/
def retryWithBackoff (op : Nat → Except String α) (maxRetries initialDelay : Nat) :
    Except String α × List Nat :=
  retryExecGo op maxRetries 0 initialDelay

/-! ## The rolling operation log (index.js, lines 142-167 and 218-229) -/

/-- One entry of `global.operationUpdates[operationId]`; entries pushed by
`logOperation` carry `details`, the WAITING entries pushed directly by
`retryWithBackoff` carry the retry fields. -/
structure OperationUpdate where
  status : String
  message : String
  timestamp : String
  retryCount : Option Nat
  maxRetries : Option Nat
  waitTime : Option Nat
  details : Option (List (String × String))
deriving DecidableEq

/-- `logOperation`'s recording step: push, then evict the oldest entry
when the length exceeds 100. -/
def logOperationRecord (log : List OperationUpdate) (u : OperationUpdate) :
    List OperationUpdate :=
  let pushed := log ++ [u]
  if 100 < pushed.length then pushed.drop 1 else pushed

/-- The direct `push` of a WAITING entry inside `retryWithBackoff`
(no eviction). -/
def retryWaitingPush (log : List OperationUpdate) (u : OperationUpdate) :
    List OperationUpdate :=
  log ++ [u]

/-! ## Backend space-type detection (src/unnamed/part_003, lines 322-412) -/

/-- `SPACE_TYPE.INSTANTMESH`. -/
def SPACE_TYPE_INSTANTMESH : String := "instantmesh"

/-- `SPACE_TYPE.HUNYUAN3D`. -/
def SPACE_TYPE_HUNYUAN3D : String := "hunyuan3d"

/-- `SPACE_TYPE.HUNYUAN3D_MINI_TURBO`. -/
def SPACE_TYPE_HUNYUAN3D_MINI_TURBO : String := "hunyuan3d_mini_turbo"

/-- `SPACE_TYPE.UNKNOWN`. -/
def SPACE_TYPE_UNKNOWN : String := "unknown"

/-- `Object.values(SPACE_TYPE)`, in declaration order. -/
def SPACE_TYPE_values : List String :=
  [SPACE_TYPE_INSTANTMESH, SPACE_TYPE_HUNYUAN3D,
   SPACE_TYPE_HUNYUAN3D_MINI_TURBO, SPACE_TYPE_UNKNOWN]

/-- Endpoint signature of InstantMesh. -/
def instantMeshEndpoints : List String :=
  ["/check_input_image", "/preprocess", "/generate_mvs", "/make3d"]

/-- Endpoint signature of Hunyuan3D-2mini-Turbo. -/
def miniTurboEndpoints : List String :=
  ["/on_gen_mode_change", "/on_decode_mode_change", "/on_export_click"]

/-- Endpoint signature of Hunyuan3D-2. -/
def hunyuan3dEndpoints : List String :=
  ["/shape_generation", "/generation_all"]

/-- `endpoints.some(e => sigs.includes(e))`. -/
def hasAnyEndpoint (endpoints sigs : List String) : Bool :=
  endpoints.any (fun e => sigs.contains e)

/-- The error thrown when no detection mechanism yields a type. -/
def unableMsg (modelSpace : String) : String :=
  "Unable to determine space type for \"" ++ modelSpace ++
    "\". Please set MODEL_SPACE_TYPE in .env to \"instantmesh\", \"hunyuan3d\", or \"hunyuan3d_mini_turbo\"."

/-- The name-based fallback: substring matching on the lowercased space name. -/
def nameFallback (modelSpace : String) : Except String String :=
  let lowerSpace := strLower modelSpace
  if jsIncludes lowerSpace "hunyuan3d-2mini-turbo" || jsIncludes lowerSpace "hunyuan3d-2mini"
      || jsIncludes lowerSpace "hunyuan3dmini" then
    Except.ok SPACE_TYPE_HUNYUAN3D_MINI_TURBO
  else if jsIncludes lowerSpace "hunyuan" then Except.ok SPACE_TYPE_HUNYUAN3D
  else if jsIncludes lowerSpace "instantmesh" then Except.ok SPACE_TYPE_INSTANTMESH
  else Except.error (unableMsg modelSpace)

/-- Is `env` (the raw `MODEL_SPACE_TYPE` variable) a truthy, recognised
manual override after lowercasing? -/
def hasValidOverride (env : Option String) : Bool :=
  let manual := (env.map strLower).getD ""
  decide (manual ≠ "" ∧ manual ∈ SPACE_TYPE_values)

/-- `detectSpaceType(client, modelSpace, workDir)`.  `env` is the raw
`MODEL_SPACE_TYPE` environment variable; `viewApi` the outcome of the
(timeout-raced) `client.view_api(true)` call, `Except.ok (some eps)`
when it resolved with `named_endpoints` keys `eps`, `Except.ok none`
when it resolved without them, `Except.error` when it threw — the outer
`catch` re-throws that error.  An invalid truthy override logs a warning
and proceeds with automatic detection. -/
def detectSpaceType (env : Option String) (viewApi : Except String (Option (List String)))
    (modelSpace : String) : Except String String :=
  let manual := (env.map strLower).getD ""
  if manual ≠ "" ∧ manual ∈ SPACE_TYPE_values then Except.ok manual
  else
    match viewApi with
    | Except.error e => Except.error e
    | Except.ok (some endpoints) =>
      if hasAnyEndpoint endpoints instantMeshEndpoints then Except.ok SPACE_TYPE_INSTANTMESH
      else if hasAnyEndpoint endpoints miniTurboEndpoints then
        Except.ok SPACE_TYPE_HUNYUAN3D_MINI_TURBO
      else if hasAnyEndpoint endpoints hunyuan3dEndpoints then Except.ok SPACE_TYPE_HUNYUAN3D
      else nameFallback modelSpace
    | Except.ok none => nameFallback modelSpace

/-! ## Concrete base states used by the closed instances -/

/-- The initial `gameState` of `GameProvider` (part_009, lines 103-155). -/
def initialGameState : GameState :=
  { code := none
    isGenerating := false
    status := GenStatus.idle
    error := none
    statusBox := { phase := Phase.idle, bullets := [], tip := none }
    buildingStatus := { bullets := [], isBuilding := false }
    codeStream := { content := "", currentType := CodeType.html, isStreaming := false }
    suggestions := []
    publisher :=
      { status := PubStatus.idle, liveUrl := none, siteName := none,
        error := none, isPublishing := false }
    operationType := OperationType.idle
    agents :=
      { orchestrator := { status := "idle", currentTask := "Standby", lastActivity := none }
        gameCreator := { status := "idle", currentTask := "Standby", lastActivity := none }
        assetGenerator := { status := "idle", currentTask := "Standby", lastActivity := none }
        publisher := { status := "idle", currentTask := "Standby", lastActivity := none } }
    assets :=
      { assets := []
        isGenerating := false
        currentCategory := none
        progress := { total_requested := 0, total_generated := 0, current_step := "idle" }
        error := none } }

/-- A fixed environment for closed instances. -/
def env0 : ReducerEnv :=
  { sessionId := "session_1700000000000_abc123def", now := "2026-10-11T00:00:00.000Z" }

/-- The provider state at mount: initial game state, no captured session id. -/
def pst0 : ProviderState := { gameState := initialGameState, realSessionId := none }

/-! ## Shared lemmas about code-chunk accumulation -/

/-- A chunk whose trimmed payload is empty fails the guard and leaves the
whole component state untouched. -/
lemma code_chunk_blank (env : ReducerEnv) (st : ProviderState) (c : String)
    (h : chunkActive c = false) : handleEvent env st (SSEEvent.code_chunk c) = st := by
  simp [handleEvent, h, detectOperationType, SSEEvent.etype, publishEventTypes,
    creationEventTypes]

/-- A chunk that passes the guard: fresh content when not streaming,
appended content otherwise, and streaming turned on. -/
lemma code_chunk_active (env : ReducerEnv) (st : ProviderState) (c : String)
    (h : chunkActive c = true) :
    (handleEvent env st (SSEEvent.code_chunk c)).gameState.codeStream.content =
      (if st.gameState.codeStream.isStreaming then st.gameState.codeStream.content ++ c
       else c) ∧
    (handleEvent env st (SSEEvent.code_chunk c)).gameState.codeStream.isStreaming = true := by
  constructor
  · simp [handleEvent, h, detectOperationType, SSEEvent.etype, publishEventTypes,
      creationEventTypes]
    cases hs : st.gameState.codeStream.isStreaming <;> simp [hs]
  · simp [handleEvent, h]

/-- While the stream is live, chunk payloads with non-blank text append in
order and the stream stays live. -/
lemma applyChunks_streaming (env : ReducerEnv) (cs : List String) :
    ∀ st : ProviderState, st.gameState.codeStream.isStreaming = true →
      (applyChunks env st cs).gameState.codeStream.content =
        st.gameState.codeStream.content ++ joinAll (cs.filter chunkActive) ∧
      (applyChunks env st cs).gameState.codeStream.isStreaming = true := by
  induction cs with
  | nil =>
    intro st h
    simp [applyChunks, joinAll, h]
  | cons c cs ih =>
    intro st h
    rw [applyChunks, List.foldl_cons]
    cases hc : chunkActive c with
    | false =>
      rw [code_chunk_blank env st c hc]
      have h0 := ih st h
      simpa [applyChunks, List.filter_cons, hc] using h0
    | true =>
      have h1 := code_chunk_active env st c hc
      have h2 := ih (handleEvent env st (SSEEvent.code_chunk c)) h1.2
      rw [applyChunks] at h2
      refine ⟨?_, h2.2⟩
      rw [h2.1, h1.1, if_pos h]
      simp [List.filter_cons, hc, joinAll, String.append_assoc]

/-- Starting from a non-streaming state, the final content is the ordered
concatenation of the non-blank chunk payloads (or the old content when
every chunk was blank). -/
lemma applyChunks_fresh (env : ReducerEnv) (cs : List String) :
    ∀ st : ProviderState, st.gameState.codeStream.isStreaming = false →
      (applyChunks env st cs).gameState.codeStream.content =
        (if (cs.filter chunkActive).isEmpty then st.gameState.codeStream.content
         else joinAll (cs.filter chunkActive)) := by
  induction cs with
  | nil => intro st _; simp [applyChunks]
  | cons c cs ih =>
    intro st h
    rw [applyChunks, List.foldl_cons]
    cases hc : chunkActive c with
    | false =>
      rw [code_chunk_blank env st c hc]
      have h0 := ih st h
      simpa [applyChunks, List.filter_cons, hc] using h0
    | true =>
      have h1 := code_chunk_active env st c hc
      have h2 := applyChunks_streaming env cs (handleEvent env st (SSEEvent.code_chunk c)) h1.2
      rw [applyChunks] at h2
      rw [h2.1, h1.1, if_neg (by simp [h])]
      simp [List.filter_cons, hc, joinAll]

/-! ## Claims C1-C4: the reducer's terminal and classification behaviour -/

/-- A concrete completed game artefact, for closed instances. -/
def gameC1 : GameCode := { html := "<html></html>", css := "", js := "" }

/-- A provider state that already holds generated code and suggestions. -/
def pstC1 : ProviderState :=
  { gameState :=
      { initialGameState with code := some gameC1, suggestions := ["Add sound effects"] }
    realSessionId := none }

/-- Claim C1, counterexample: processing an `error` event does not clear
`code` — from a state holding generated code, the resulting `code` is not
empty/null, contradicting the claim that it becomes empty regardless of
prior state. -/
theorem C1_error_keeps_code_counterexample :
    (handleEvent env0 pstC1 (SSEEvent.error "Agent failed")).gameState.code ≠ none := by
  decide

/-- Claim C1, amended: on an `error` event the reducer keeps `code` at its
prior value, sets the status to `error`, stores the message, empties the
suggestions, and clears the status, building and code-stream displays. -/
theorem C1_error_event_amended (env : ReducerEnv) (st : ProviderState) (msg : String) :
    (handleEvent env st (SSEEvent.error msg)).gameState.code = st.gameState.code ∧
    (handleEvent env st (SSEEvent.error msg)).gameState.status = GenStatus.error ∧
    (handleEvent env st (SSEEvent.error msg)).gameState.error = some msg ∧
    (handleEvent env st (SSEEvent.error msg)).gameState.suggestions = [] ∧
    (handleEvent env st (SSEEvent.error msg)).gameState.codeStream.content = "" ∧
    (handleEvent env st (SSEEvent.error msg)).gameState.codeStream.isStreaming = false ∧
    (handleEvent env st (SSEEvent.error msg)).gameState.statusBox.bullets = [] ∧
    (handleEvent env st (SSEEvent.error msg)).gameState.buildingStatus.bullets = [] :=
  ⟨rfl, rfl, rfl, rfl, rfl, rfl, rfl, rfl⟩

/-- Claim C2, counterexample: a whitespace-only chunk fails the
`payload.trim()` guard and is dropped, so the final content is not the
concatenation of all chunk payloads of the session. -/
theorem C2_blank_chunk_counterexample :
    (applyChunks env0 pst0 ["a", " ", "b"]).gameState.codeStream.content ≠
      joinAll ["a", " ", "b"] := by
  decide

/-- Claim C2, amended: within one streaming session (starting with
`isStreaming = false`), the final `codeStream.content` is the ordered
concatenation of the chunk payloads whose trimmed text is non-empty
(blank chunks are ignored; if all chunks were blank the old content
remains), and a non-blank chunk arriving while `isStreaming` is false
starts a fresh accumulator holding exactly that chunk's payload. -/
theorem C2_chunk_accumulation_amended (env : ReducerEnv) (st : ProviderState)
    (cs : List String) (h : st.gameState.codeStream.isStreaming = false) :
    ((applyChunks env st cs).gameState.codeStream.content =
      (if (cs.filter chunkActive).isEmpty then st.gameState.codeStream.content
       else joinAll (cs.filter chunkActive))) ∧
    (∀ c, chunkActive c = true →
      (handleEvent env st (SSEEvent.code_chunk c)).gameState.codeStream.content = c) := by
  refine ⟨applyChunks_fresh env cs st h, fun c hc => ?_⟩
  rw [(code_chunk_active env st c hc).1, if_neg (by simp [h])]

/-- Witness for C2's amended theorem at a concrete session. -/
theorem C2_chunk_accumulation_amended_witness :
    (applyChunks env0 pst0 ["<html>", "</html>"]).gameState.codeStream.content =
      "<html></html>" := by
  have h := (C2_chunk_accumulation_amended env0 pst0 ["<html>", "</html>"] rfl).1
  rw [h]
  decide

/-- Claim C3: a terminal `code` event replaces `code` wholesale with the
payload, sets the generation status to `completed`, and switches both
`isGenerating` and `codeStream.isStreaming` off, from any prior state. -/
theorem C3_code_terminal_event (env : ReducerEnv) (st : ProviderState) (g : GameCode) :
    (handleEvent env st (SSEEvent.code g)).gameState.code = some g ∧
    (handleEvent env st (SSEEvent.code g)).gameState.status = GenStatus.completed ∧
    (handleEvent env st (SSEEvent.code g)).gameState.isGenerating = false ∧
    (handleEvent env st (SSEEvent.code g)).gameState.codeStream.isStreaming = false :=
  ⟨rfl, rfl, rfl, rfl⟩

/-- Claim C4: after any processed event, `operationType` is `publishing`
for the publish event types, `game_creation` for the creation event
types, and unchanged from its prior value for the asset-lifecycle event
types — independent of the prior state, hence a `publish_status` right
after a creation-classified event still yields `publishing`. -/
theorem C4_operation_type_classification (env : ReducerEnv) (st : ProviderState)
    (e : SSEEvent) :
    (e.etype ∈ publishEventTypes →
      (handleEvent env st e).gameState.operationType = OperationType.publishing) ∧
    (e.etype ∈ creationEventTypes →
      (handleEvent env st e).gameState.operationType = OperationType.game_creation) ∧
    (e.etype ∈ assetEventTypes →
      (handleEvent env st e).gameState.operationType = st.gameState.operationType) := by
  refine ⟨?_, ?_, ?_⟩ <;> intro h <;> cases e <;> simp only [SSEEvent.etype] at h <;>
    first
      | rfl
      | exact absurd h (by decide)

/-- Witness for C4 at a concrete history: a `publish_status` event right
after a creation-classified `status` event yields `publishing`. -/
theorem C4_operation_type_classification_witness :
    (handleEvent env0 (handleEvent env0 pst0 (SSEEvent.status StatusPayload.thinking))
        (SSEEvent.publish_status PublishStatus.validating)).gameState.operationType =
      OperationType.publishing ∧
    (handleEvent env0 pst0 (SSEEvent.status StatusPayload.thinking)).gameState.operationType =
      OperationType.game_creation :=
  ⟨(C4_operation_type_classification env0
      (handleEvent env0 pst0 (SSEEvent.status StatusPayload.thinking))
      (SSEEvent.publish_status PublishStatus.validating)).1 (by decide),
   (C4_operation_type_classification env0 pst0
      (SSEEvent.status StatusPayload.thinking)).2.1 (by decide)⟩

/-! ## Claims C7-C8: session-id capture and suggestion parsing -/

/-- A provider state that already captured a session identifier. -/
def pstC7 : ProviderState :=
  { gameState := initialGameState, realSessionId := some "adk_session_A" }

/-- An `asset_session_start` payload carrying a different session id. -/
def sessC7 : SessionStartPayload :=
  { description := "game assets"
    total_assets := 3
    categories := ["primary_character", "interactive_object", "environmental_element"]
    session_id := some "adk_session_B"
    user_id := some "maya_user" }

/-- An `asset_completed` payload carrying a session id. -/
def compC7 : AssetCompletedPayload :=
  { category := "primary_character"
    filename := "hero.png"
    gcs_url := "gs://bucket/hero.png"
    version := "v1"
    size_bytes := 1024
    status := "completed"
    session_id := some "adk_session_C"
    user_id := some "maya_user" }

/-- Claim C7, counterexample: `asset_session_start` stores the payload's
session id unconditionally — from a state that already captured an
identifier, the new event changes the stored identifier, contradicting
first-wins. -/
theorem C7_session_start_overwrites_counterexample :
    (handleEvent env0 pstC7 (SSEEvent.asset_session_start sessC7)).realSessionId ≠
      pstC7.realSessionId := by
  decide

/-- Claim C7, amended: `asset_session_start` overwrites the stored session
identifier whenever its payload carries a truthy one (last-wins); it is
`asset_completed` that captures first-wins, storing its payload's id only
when none is held and leaving an already-captured id unchanged. -/
theorem C7_session_capture_amended (env : ReducerEnv) (st : ProviderState)
    (p : SessionStartPayload) (q : AssetCompletedPayload) (sid : String) :
    (p.session_id = some sid → sid ≠ "" →
      (handleEvent env st (SSEEvent.asset_session_start p)).realSessionId = some sid) ∧
    (q.session_id = some sid → sid ≠ "" → st.realSessionId = none →
      (handleEvent env st (SSEEvent.asset_completed q)).realSessionId = some sid) ∧
    (∀ r, st.realSessionId = some r → r ≠ "" →
      (handleEvent env st (SSEEvent.asset_completed q)).realSessionId = some r) := by
  refine ⟨fun h1 h2 => ?_, fun h1 h2 h3 => ?_, fun r h1 h2 => ?_⟩
  · simp [handleEvent, h1, optTruthy, h2]
  · simp [handleEvent, h1, h3, optTruthy, h2]
  · simp [handleEvent, h1, optTruthy, h2]

/-- Witness for C7's amended theorem: a fresh state captures ids from
either event, an already-captured id survives `asset_completed`. -/
theorem C7_session_capture_amended_witness :
    (handleEvent env0 pst0 (SSEEvent.asset_session_start sessC7)).realSessionId =
      some "adk_session_B" ∧
    (handleEvent env0 pst0 (SSEEvent.asset_completed compC7)).realSessionId =
      some "adk_session_C" ∧
    (handleEvent env0 pstC7 (SSEEvent.asset_completed compC7)).realSessionId =
      some "adk_session_A" :=
  ⟨(C7_session_capture_amended env0 pst0 sessC7 compC7 "adk_session_B").1
      rfl (by decide),
   (C7_session_capture_amended env0 pst0 sessC7 compC7 "adk_session_C").2.1
      rfl (by decide) rfl,
   (C7_session_capture_amended env0 pstC7 sessC7 compC7 "adk_session_C").2.2
      "adk_session_A" rfl (by decide)⟩

/-- The loop accumulator of the suggestion parser is the `filterMap` of
its per-line contribution. -/
lemma parseSuggestionLines_eq_filterMap (lines : List String) :
    parseSuggestionLines lines = lines.filterMap parseLine := by
  suffices h : ∀ acc : List String,
      lines.foldl
        (fun acc l =>
          match parseLine l with
          | some c => acc ++ [c]
          | none => acc)
        acc = acc ++ lines.filterMap parseLine by
    simpa [parseSuggestionLines] using h []
  induction lines with
  | nil => intro acc; simp
  | cons l ls ih =>
    intro acc
    cases hl : parseLine l <;> simp [List.filterMap_cons, hl, ih]

/-- Claim C8: a `suggestions` event parses each bullet-marked line into
the suggestions list in line order with the marker stripped (the example
payload yields exactly its two bullet texts); a payload with no
bullet-like line installs the fixed 6-item default list; the resulting
suggestions list is never empty. -/
theorem C8_suggestions_parsing (env : ReducerEnv) (st : ProviderState) :
    ((handleEvent env st
        (SSEEvent.suggestions "- Add sound\n- Add color\n")).gameState.suggestions =
      ["Add sound", "Add color"]) ∧
    (∀ lines, parseSuggestionLines lines = lines.filterMap parseLine) ∧
    (∀ s, parseSuggestionLines (splitLines s) = [] →
      (handleEvent env st (SSEEvent.suggestions s)).gameState.suggestions =
        defaultSuggestions) ∧
    defaultSuggestions.length = 6 ∧
    (∀ s, (handleEvent env st (SSEEvent.suggestions s)).gameState.suggestions ≠ []) := by
  refine ⟨?_, parseSuggestionLines_eq_filterMap, fun s hs => ?_, rfl, fun s => ?_⟩
  · rfl
  · simp [handleEvent, hs, defaultSuggestions]
  · by_cases hp : 0 < (parseSuggestionLines (splitLines s)).length
    · have he : (handleEvent env st (SSEEvent.suggestions s)).gameState.suggestions =
          parseSuggestionLines (splitLines s) := by
        simp [handleEvent, hp]
      rw [he]
      intro hnil
      rw [hnil] at hp
      simp at hp
    · have he : (handleEvent env st (SSEEvent.suggestions s)).gameState.suggestions =
          defaultSuggestions := by
        simp [handleEvent, hp]
      rw [he]
      decide

/-- Witness for C8 at a bullet-free payload: the default list is installed. -/
theorem C8_suggestions_parsing_witness :
    (handleEvent env0 pst0
        (SSEEvent.suggestions "The game is complete.")).gameState.suggestions =
      defaultSuggestions :=
  (C8_suggestions_parsing env0 pst0).2.2.1 "The game is complete." (by decide)

/-! ## Shared lemmas about the retry loop -/

/-- When every attempt up to `maxRetries` fails, the loop returns the
error of the last attempt, unchanged. -/
lemma retryExecGo_all_fail {α : Type} (op : Nat → Except String α) (maxRetries : Nat)
    (errs : Nat → String) :
    ∀ n k delay, maxRetries - k = n → k ≤ maxRetries →
      (∀ i, k ≤ i → i ≤ maxRetries → op i = Except.error (errs i)) →
      (retryExecGo op maxRetries k delay).1 = Except.error (errs maxRetries) := by
  intro n
  induction n with
  | zero =>
    intro k delay hn hk hall
    have hk2 : k = maxRetries := by omega
    subst hk2
    rw [retryExecGo, hall k le_rfl le_rfl]
    simp
  | succ n ih =>
    intro k delay hn hk hall
    rw [retryExecGo, hall k le_rfl hk]
    have hcond : ¬ (maxRetries < k + 1) := by omega
    simp only [dif_neg hcond]
    exact ih (k + 1) _ (by omega) (by omega) (fun i h1 h2 => hall i (by omega) h2)

/-- The first successful attempt within the retry budget is returned. -/
lemma retryExecGo_success {α : Type} (op : Nat → Except String α) (maxRetries : Nat)
    (errs : Nat → String) :
    ∀ n k delay j a, j - k = n → k ≤ j → j ≤ maxRetries →
      (∀ i, i < j → op i = Except.error (errs i)) → op j = Except.ok a →
      (retryExecGo op maxRetries k delay).1 = Except.ok a := by
  intro n
  induction n with
  | zero =>
    intro k delay j a hn hk hj hall hok
    have hk2 : k = j := by omega
    subst hk2
    rw [retryExecGo, hok]
  | succ n ih =>
    intro k delay j a hn hk hj hall hok
    have hklt : k < j := by omega
    rw [retryExecGo, hall k hklt]
    have hcond : ¬ (maxRetries < k + 1) := by omega
    simp only [dif_neg hcond]
    exact ih (k + 1) _ j a (by omega) (by omega) hj hall hok

/-- For a persistent non-quota error, the waits form the doubling
sequence `delay * 2 ^ i`. -/
lemma retryExecGo_backoff {α : Type} (op : Nat → Except String α) (maxRetries : Nat)
    (e : String) (hop : ∀ i, op i = Except.error e)
    (hq : gpuQuotaMatchTime e = none) (hm : quotaMention e = false) :
    ∀ n k delay, maxRetries - k = n →
      (retryExecGo op maxRetries k delay).2 =
        (List.range n).map (fun i => delay * 2 ^ i) := by
  intro n
  induction n with
  | zero =>
    intro k delay hn
    rw [retryExecGo, hop k]
    have hcond : maxRetries < k + 1 := by omega
    simp [dif_pos hcond]
  | succ n ih =>
    intro k delay hn
    rw [retryExecGo, hop k]
    have hcond : ¬ (maxRetries < k + 1) := by omega
    simp only [dif_neg hcond]
    have hw : computeWaitAndDelay e delay = (delay, delay * 2) := by
      simp [computeWaitAndDelay, hq, hm]
    rw [hw]
    simp only [ih (k + 1) (delay * 2) (by omega)]
    rw [List.range_succ_eq_map]
    simp only [List.map_cons, List.map_map]
    have hfun : ((fun i => delay * 2 ^ i) ∘ Nat.succ) = (fun i => delay * 2 * 2 ^ i) := by
      funext i
      simp only [Function.comp_apply, pow_succ]
      ring
    rw [hfun]
    congr 1
    ring

/-! ## Claims C5, C6 and C10: the retry executor -/

/-- Claim C5: the wait before each retry.  The example quota message with
an embedded `00:01:30` parses to 1 min 30 s and waits 90 s plus the fixed
1 s buffer; a message mentioning quota exhaustion without a parseable
duration waits the flat 60 s default; any other failure sleeps the
current backoff delay and doubles it, so a persistent non-quota error
produces the doubling sequence from `initialDelay`; the remaining
conjuncts exercise the other three duration forms, the zero-duration
default and the precedence of the `HH:MM:SS` capture. -/
theorem C5_retry_wait_computation :
    (∀ d, computeWaitAndDelay
        "Rate limit: You have exceeded your GPU quota, retry in 00:01:30" d =
      (90 * 1000 + 1000, d)) ∧
    (gpuQuotaMatchTime "Rate limit: You have exceeded your GPU quota, retry in 00:01:30" =
      some (QuotaTime.hms 0 1 30)) ∧
    (∀ d, computeWaitAndDelay "Request failed: quota exceeded" d = (60 * 1000, d)) ∧
    (∀ msg d, gpuQuotaMatchTime msg = none → quotaMention msg = false →
      computeWaitAndDelay msg d = (d, d * 2)) ∧
    (∀ (op : Nat → Except String Nat) (maxRetries d : Nat) (e : String),
      (∀ i, op i = Except.error e) → gpuQuotaMatchTime e = none → quotaMention e = false →
      (retryWithBackoff op maxRetries d).2 =
        (List.range maxRetries).map (fun i => d * 2 ^ i)) ∧
    (∀ d, computeWaitAndDelay "You have exceeded your GPU quota, wait 45 seconds" d =
      (45 * 1000 + 1000, d)) ∧
    (∀ d, computeWaitAndDelay "exceeded your GPU quota, retry in 5 minutes" d =
      (5 * 60 * 1000 + 1000, d)) ∧
    (∀ d, computeWaitAndDelay "exceeded your GPU quota, retry after 2 hours" d =
      (2 * 3600 * 1000 + 1000, d)) ∧
    (∀ d, computeWaitAndDelay "exceeded your GPU quota, retry in 0 seconds" d =
      (60 * 1000 + 1000, d)) ∧
    (gpuQuotaMatchTime "exceeded your GPU quota, wait 00:00:30 s" =
      some (QuotaTime.hms 0 0 30)) := by
  refine ⟨fun d => rfl, rfl, fun d => rfl, fun msg d hq hm => ?_,
    fun op maxRetries d e hop hq hm => ?_,
    fun d => rfl, fun d => rfl, fun d => rfl, fun d => rfl, rfl⟩
  · simp [computeWaitAndDelay, hq, hm]
  · exact retryExecGo_backoff op maxRetries e hop hq hm maxRetries 0 d (by omega)

/-- Witness for C5: a persistent non-quota failure under the default
budget doubles 5000 → 10000 → 20000. -/
theorem C5_retry_wait_computation_witness :
    (retryWithBackoff (fun _ => (Except.error "connection reset" : Except String Nat))
        3 5000).2 = [5000, 10000, 20000] := by
  have h := C5_retry_wait_computation.2.2.2.2.1
    (fun _ => (Except.error "connection reset" : Except String Nat)) 3 5000
    "connection reset" (fun i => rfl) (by decide) (by decide)
  rw [h]
  decide

/-- Claim C6: the executor re-runs the operation after each failure until
it succeeds or the retry budget is exhausted; attempts run at indices
`0..maxRetries`, and when all of them fail the loop re-throws the last
attempt's error unchanged. -/
theorem C6_retry_rethrows_last_error {α : Type} (op : Nat → Except String α)
    (maxRetries initialDelay : Nat) (errs : Nat → String) :
    ((∀ k, k ≤ maxRetries → op k = Except.error (errs k)) →
      (retryWithBackoff op maxRetries initialDelay).1 = Except.error (errs maxRetries)) ∧
    (∀ j a, j ≤ maxRetries → (∀ i, i < j → op i = Except.error (errs i)) →
      op j = Except.ok a →
      (retryWithBackoff op maxRetries initialDelay).1 = Except.ok a) := by
  constructor
  · intro hall
    exact retryExecGo_all_fail op maxRetries errs maxRetries 0 initialDelay (by omega)
      (Nat.zero_le _) (fun i _ h2 => hall i h2)
  · intro j a hj hall hok
    exact retryExecGo_success op maxRetries errs j 0 initialDelay j a (by omega)
      (Nat.zero_le _) hj hall hok

/-- Witness for C6: three attempts all failing with the same error
re-throw it unchanged; an operation succeeding on its third attempt
returns its value. -/
theorem C6_retry_rethrows_last_error_witness :
    (retryWithBackoff (fun _ => (Except.error "boom" : Except String Nat)) 2 5000).1 =
      Except.error "boom" ∧
    (retryWithBackoff
        (fun k => if k = 2 then Except.ok 42 else (Except.error "x" : Except String Nat))
        3 5000).1 = Except.ok 42 :=
  ⟨(C6_retry_rethrows_last_error (fun _ => (Except.error "boom" : Except String Nat))
      2 5000 (fun _ => "boom")).1 (fun k _ => rfl),
   (C6_retry_rethrows_last_error
      (fun k => if k = 2 then Except.ok 42 else (Except.error "x" : Except String Nat))
      3 5000 (fun _ => "x")).2 2 42 (by omega) (fun i hi => by interval_cases i <;> rfl)
      rfl⟩

/-- A WAITING entry as pushed by the retry executor. -/
def waitingEntry : OperationUpdate :=
  { status := "WAITING"
    message := "GPU quota exceeded. Waiting for 60 seconds before retry 1/3"
    timestamp := "2026-10-11T00:00:00.000Z"
    retryCount := some 1
    maxRetries := some 3
    waitTime := some 60
    details := none }

/-- Claim C10, counterexample: the retry executor's WAITING entries are
pushed without eviction, so a log already holding 100 entries grows to
101 — the bound is exceeded. -/
theorem C10_waiting_push_counterexample :
    ¬ ((retryWaitingPush (List.replicate 100 waitingEntry) waitingEntry).length ≤ 100) := by
  simp [retryWaitingPush]

/-- Claim C10, amended: only `logOperation`'s recording step enforces the
bound — it keeps the log at no more than 100 entries, evicting the
oldest — while the WAITING entries pushed directly by the retry executor
always grow the log by one, without eviction. -/
theorem C10_log_bound_amended (log : List OperationUpdate) (u v : OperationUpdate)
    (h : log.length ≤ 100) :
    (logOperationRecord log u).length ≤ 100 ∧
    (retryWaitingPush log v).length = log.length + 1 := by
  constructor
  · simp only [logOperationRecord]
    split
    next hgt =>
      simp only [List.length_append, List.length_cons, List.length_nil] at hgt
      simp only [List.length_drop, List.length_append, List.length_cons, List.length_nil]
      omega
    next hle =>
      simp only [List.length_append, List.length_cons, List.length_nil] at hle ⊢
      omega
  · simp [retryWaitingPush]

/-- Witness for C10's amended theorem at a full log. -/
theorem C10_log_bound_amended_witness :
    (logOperationRecord (List.replicate 100 waitingEntry) waitingEntry).length ≤ 100 ∧
    (retryWaitingPush (List.replicate 100 waitingEntry) waitingEntry).length = 101 := by
  have h := C10_log_bound_amended (List.replicate 100 waitingEntry) waitingEntry
    waitingEntry (by simp)
  exact ⟨h.1, by simpa using h.2⟩

/-! ## Claim C9: backend space-type detection -/

/-- Claim C9: detection tries a valid manual override first (it wins over
everything); otherwise it probes the declared endpoints for the three
backend signatures in order; otherwise it falls back to substring
matching on the lowercased space name; and when no substring matches
either, the fallback is an error — detection never silently defaults to
a specific backend type. -/
theorem C9_space_detection (env : Option String)
    (va : Except String (Option (List String))) (space : String) :
    (∀ t, env = some t → strLower t ≠ "" → strLower t ∈ SPACE_TYPE_values →
      detectSpaceType env va space = Except.ok (strLower t)) ∧
    (hasValidOverride env = false →
      (∀ eps, va = Except.ok (some eps) →
        (hasAnyEndpoint eps instantMeshEndpoints = true →
          detectSpaceType env va space = Except.ok SPACE_TYPE_INSTANTMESH) ∧
        (hasAnyEndpoint eps instantMeshEndpoints = false →
          hasAnyEndpoint eps miniTurboEndpoints = true →
          detectSpaceType env va space = Except.ok SPACE_TYPE_HUNYUAN3D_MINI_TURBO) ∧
        (hasAnyEndpoint eps instantMeshEndpoints = false →
          hasAnyEndpoint eps miniTurboEndpoints = false →
          hasAnyEndpoint eps hunyuan3dEndpoints = true →
          detectSpaceType env va space = Except.ok SPACE_TYPE_HUNYUAN3D) ∧
        (hasAnyEndpoint eps instantMeshEndpoints = false →
          hasAnyEndpoint eps miniTurboEndpoints = false →
          hasAnyEndpoint eps hunyuan3dEndpoints = false →
          detectSpaceType env va space = nameFallback space)) ∧
      (va = Except.ok none → detectSpaceType env va space = nameFallback space)) ∧
    (jsIncludes (strLower space) "hunyuan3d-2mini-turbo" = true →
      nameFallback space = Except.ok SPACE_TYPE_HUNYUAN3D_MINI_TURBO) ∧
    (jsIncludes (strLower space) "hunyuan3d-2mini-turbo" = false →
      jsIncludes (strLower space) "hunyuan3d-2mini" = false →
      jsIncludes (strLower space) "hunyuan3dmini" = false →
      jsIncludes (strLower space) "hunyuan" = true →
      nameFallback space = Except.ok SPACE_TYPE_HUNYUAN3D) ∧
    (jsIncludes (strLower space) "hunyuan3d-2mini-turbo" = false →
      jsIncludes (strLower space) "hunyuan3d-2mini" = false →
      jsIncludes (strLower space) "hunyuan3dmini" = false →
      jsIncludes (strLower space) "hunyuan" = false →
      jsIncludes (strLower space) "instantmesh" = true →
      nameFallback space = Except.ok SPACE_TYPE_INSTANTMESH) ∧
    (jsIncludes (strLower space) "hunyuan3d-2mini-turbo" = false →
      jsIncludes (strLower space) "hunyuan3d-2mini" = false →
      jsIncludes (strLower space) "hunyuan3dmini" = false →
      jsIncludes (strLower space) "hunyuan" = false →
      jsIncludes (strLower space) "instantmesh" = false →
      nameFallback space = Except.error (unableMsg space)) := by
  refine ⟨?_, ?_, ?_, ?_, ?_, ?_⟩
  · intro t ht h1 h2
    subst ht
    simp [detectSpaceType, h1, h2]
  · intro hv
    have hv2 : ¬ ((env.map strLower).getD "" ≠ "" ∧
        (env.map strLower).getD "" ∈ SPACE_TYPE_values) := by
      simpa [hasValidOverride] using hv
    constructor
    · intro eps hva
      subst hva
      refine ⟨fun h1 => ?_, fun h1 h2 => ?_, fun h1 h2 h3 => ?_, fun h1 h2 h3 => ?_⟩ <;>
        simp [detectSpaceType, hv2, h1] <;> simp_all
    · intro hva
      subst hva
      simp [detectSpaceType, hv2]
  · intro h1
    simp [nameFallback, h1]
  · intro h1 h2 h3 h4
    simp [nameFallback, h1, h2, h3, h4]
  · intro h1 h2 h3 h4 h5
    simp [nameFallback, h1, h2, h3, h4, h5]
  · intro h1 h2 h3 h4 h5
    simp [nameFallback, h1, h2, h3, h4, h5]

/-- Witness for C9: a manual override wins even when the probe failed; a
Hunyuan3D-2 endpoint signature is detected without an override; a space
with no override, no matching endpoints and an unrecognised name is a
hard error. -/
theorem C9_space_detection_witness :
    detectSpaceType (some "InstantMesh") (Except.error "view_api timed out")
        "tencent/Hunyuan3D-2" = Except.ok SPACE_TYPE_INSTANTMESH ∧
    detectSpaceType none (Except.ok (some ["/shape_generation", "/lambda"]))
        "acme/mesh-gen" = Except.ok SPACE_TYPE_HUNYUAN3D ∧
    detectSpaceType none (Except.ok (some ["/lambda"])) "acme/mesh-gen" =
      Except.error (unableMsg "acme/mesh-gen") := by
  refine ⟨?_, ?_, ?_⟩
  · exact (C9_space_detection (some "InstantMesh") (Except.error "view_api timed out")
      "tencent/Hunyuan3D-2").1 "InstantMesh" rfl (by decide) (by decide)
  · exact ((C9_space_detection none (Except.ok (some ["/shape_generation", "/lambda"]))
      "acme/mesh-gen").2.1 (by decide)).1 ["/shape_generation", "/lambda"] rfl
      |>.2.2.1 (by decide) (by decide) (by decide)
  · have h1 := ((C9_space_detection none (Except.ok (some ["/lambda"]))
      "acme/mesh-gen").2.1 (by decide)).1 ["/lambda"] rfl
      |>.2.2.2 (by decide) (by decide) (by decide)
    have h2 := (C9_space_detection none (Except.ok (some ["/lambda"]))
      "acme/mesh-gen").2.2.2.2.2 (by decide) (by decide) (by decide) (by decide) (by decide)
    rw [h1, h2]
